import Mathlib

/-!
# helpDesk front-end controller (`static/js/main.js`)

A shallow embedding of the script's global state and event handlers, and the
properties of the sidebar, chat store, login handler, bootstrap, renderers and
modal that the specification states.

The script keeps its state in global variables and in the document.  The
embedding passes both explicitly as one record, `Page`.  A handler that can
dereference a missing element returns a `Completion`: the page it leaves
behind, tagged with whether it finished or threw a `TypeError`.
-/

namespace HelpDesk

/-! ## Class lists -/

/-- `classList.remove(tok)`: every occurrence of the token goes. -/
def classListRemove (tok : String) (cl : List String) : List String :=
  cl.filter (fun c => c != tok)

/-- `classList.add(tok)`: the token is appended unless already present. -/
def classListAdd (tok : String) (cl : List String) : List String :=
  if tok ∈ cl then cl else cl ++ [tok]

/-! ## Data -/

/-- Handlers that the script stores in an element's `onclick`. -/
inductive Handler where
  | toggleSidebar
  | hideModal
  deriving DecidableEq, Repr

/-- An element reachable through `document.getElementById` that the script
creates or looks up by id: the sidebar overlay and the message modal.  For the
modal, `title` and `message` are the `textContent` of its `#modal-title` and
`#modal-message` descendants, and `innerHTML` the markup assigned at creation. -/
structure Element where
  id : String
  classList : List String
  onclick : Option Handler
  innerHTML : String
  title : String
  message : String
  deriving DecidableEq, Repr

/-- A child created by one of the two renderers: `createElement(tag)` followed
by assignments to `className` and `innerHTML`. -/
structure Row where
  tag : String
  className : String
  innerHTML : String
  deriving DecidableEq, Repr

/-- One entry of `sampleTickets`. -/
structure Ticket where
  id : Nat
  title : String
  status : String
  priority : String
  assignedTo : String
  date : String
  deriving DecidableEq, Repr

/-- One entry of `chatMessages`. -/
structure ChatMessage where
  id : Nat
  sender : String
  message : String
  time : String
  deriving DecidableEq, Repr

/-- Calls recorded in order, so that "runs once" and "is invoked once" can be
stated: a ghost log, not a variable of the script. -/
inductive Call where
  | consoleError (msg : String)
  | showCustomMessage (title message : String)
  | populateTicketsTable
  | populateChatMessages
  deriving DecidableEq, Repr

/-- The script's globals together with the part of the document it touches.
An element constant bound by `getElementById` at load is `none` when the lookup
returned `null`; a present element is given by its class list, its child rows
or its value. -/
structure Page where
  /-- `let isAuthenticated` -/
  isAuthenticated : Bool
  /-- `let isSidebarOpen` -/
  isSidebarOpen : Bool
  /-- `const sampleTickets` -/
  sampleTickets : List Ticket
  /-- `let chatMessages` -/
  chatMessages : List ChatMessage
  /-- class list of `#loading-spinner` -/
  loadingSpinner : Option (List String)
  /-- class list of `#main-header` -/
  mainHeader : Option (List String)
  /-- class list of `#main-sidebar` -/
  mainSidebar : Option (List String)
  /-- children of `#tickets-table-body` -/
  ticketsTableBody : Option (List Row)
  /-- children of `#chat-messages` -/
  chatMessagesContainer : Option (List Row)
  /-- `.value` of `#new-message-input` -/
  newMessageInput : Option String
  /-- class list of `document.body` -/
  bodyClasses : List String
  /-- `document.body.contains(dashboardPage)` -/
  dashboardPage : Bool
  /-- the overlay and modal elements of the document, in document order -/
  body : List Element
  /-- last value assigned to `window.location.href`, if any -/
  location : Option String
  /-- ghost call log -/
  trace : List Call
  deriving DecidableEq, Repr

/-- How a handler ended: normally, or by a `TypeError` from reading a property
of `null`.  Either way the page is left as the handler had made it so far. -/
inductive Completion where
  | normal (p : Page)
  | thrown (p : Page)
  deriving DecidableEq, Repr

/-- The page a handler leaves behind. -/
def Completion.page : Completion → Page
  | .normal p => p
  | .thrown p => p

/-- The literal of `sampleTickets`. -/
def sampleTicketsLiteral : List Ticket :=
  [ { id := 1, title := "Printer not working", status := "Open", priority := "High",
      assignedTo := "John Doe", date := "2025-07-01" },
    { id := 2, title := "Software installation request", status := "In Progress",
      priority := "Normal", assignedTo := "Jane Smith", date := "2025-06-28" },
    { id := 3, title := "Network connectivity issue", status := "Open",
      priority := "Critical", assignedTo := "John Doe", date := "2025-07-02" },
    { id := 4, title := "Account lockout", status := "Closed", priority := "High",
      assignedTo := "Jane Smith", date := "2025-06-25" },
    { id := 5, title := "New user onboarding", status := "Open", priority := "Low",
      assignedTo := "Admin", date := "2025-07-03" } ]

/-- The literal that `chatMessages` starts with. -/
def chatMessagesLiteral : List ChatMessage :=
  [ { id := 1, sender := "Support", message := "Hello! How can I help you today?",
      time := "10:00 AM" },
    { id := 2, sender := "You", message := "Hi, I have an issue with my laptop.",
      time := "10:02 AM" },
    { id := 3, sender := "Support", message := "Please describe the problem in detail.",
      time := "10:03 AM" } ]

/-- Top-level execution of the script over a document: the globals receive
their initial values, the document part of `doc` is kept. -/
def scriptLoad (doc : Page) : Page :=
  { doc with
    isAuthenticated := false
    isSidebarOpen := false
    sampleTickets := sampleTicketsLiteral
    chatMessages := chatMessagesLiteral }

/-! ## Document lookups -/

/-- `document.getElementById(id)` over the modelled elements: the first one in
document order. -/
def getElementById (id : String) (body : List Element) : Option Element :=
  body.find? (fun e => e.id == id)

/-- `el.remove()` for the element that `getElementById(id)` returned. -/
def removeById (id : String) (body : List Element) : List Element :=
  body.eraseP (fun e => e.id == id)

/-- Number of elements carrying the given id. -/
def countById (id : String) (body : List Element) : Nat :=
  body.countP (fun e => e.id == id)

/-! ## Sidebar -/

/-- The element built by the open branch of `toggleSidebar`. -/
def sidebarOverlay : Element :=
  { id := "sidebar-overlay"
    classList := ["fixed", "inset-0", "bg-black", "bg-opacity-50", "z-20", "md:hidden"]
    onclick := some Handler.toggleSidebar
    innerHTML := ""
    title := ""
    message := "" }

/-- `toggleSidebar`.  The flag is flipped first; `mainSidebar.classList` is then
read without a null check, so a missing sidebar element ends the call there. -/
def toggleSidebar (p : Page) : Completion :=
  let p1 := { p with isSidebarOpen := !p.isSidebarOpen }
  if p1.isSidebarOpen then
    match p1.mainSidebar with
    | none => .thrown p1
    | some cl =>
      let cl1 := classListAdd "translate-x-0" (classListRemove "-translate-x-full" cl)
      .normal { p1 with mainSidebar := some cl1, body := p1.body ++ [sidebarOverlay] }
  else
    match p1.mainSidebar with
    | none => .thrown p1
    | some cl =>
      let cl1 := classListAdd "-translate-x-full" (classListRemove "translate-x-0" cl)
      let p2 := { p1 with mainSidebar := some cl1 }
      match getElementById "sidebar-overlay" p2.body with
      | some _ => .normal { p2 with body := removeById "sidebar-overlay" p2.body }
      | none => .normal p2

/-- The `resize` listener, run with `window.innerWidth = innerWidth`. -/
def onResize (innerWidth : Nat) (p : Page) : Completion :=
  if 768 ≤ innerWidth && p.isSidebarOpen then toggleSidebar p else .normal p

/-- Events that drive the sidebar: a call of `toggleSidebar` (toggle button or
overlay click) and a window resize to a given width. -/
inductive SidebarEvent where
  | toggle
  | resize (innerWidth : Nat)
  deriving DecidableEq, Repr

/-- One sidebar event. -/
def sidebarStep (p : Page) : SidebarEvent → Page
  | .toggle => (toggleSidebar p).page
  | .resize w => (onResize w p).page

/-- A finite sequence of sidebar events, oldest first. -/
def sidebarRun (p : Page) (evs : List SidebarEvent) : Page :=
  evs.foldl sidebarStep p

/-- Number of `#sidebar-overlay` elements in the document. -/
def overlayCount (p : Page) : Nat :=
  countById "sidebar-overlay" p.body

/-! ## Message modal -/

/-- The element built by the creation branch of `showCustomMessage`.  Its
`onclick` field stands for the handler that the same branch puts on the
`#modal-close-button` descendant. -/
def customMessageModal : Element :=
  { id := "custom-message-modal"
    classList := ["fixed", "inset-0", "bg-black", "bg-opacity-50", "flex", "items-center",
      "justify-center", "z-[100]", "p-4"]
    onclick := some Handler.hideModal
    innerHTML :=
      "\n            <div class=\"bg-white rounded-lg shadow-xl p-6 max-w-sm w-full text-center\">" ++
      "\n                <h3 class=\"text-xl font-bold text-gray-900 mb-4\" id=\"modal-title\"></h3>" ++
      "\n                <p class=\"text-gray-700 mb-6\" id=\"modal-message\"></p>" ++
      "\n                <button class=\"btn btn-primary\" id=\"modal-close-button\">OK</button>" ++
      "\n            </div>" ++
      "\n        "
    title := ""
    message := "" }

/-- Apply `f` to the first element with the given id, the one that
`getElementById` returns. -/
def updateById (id : String) (f : Element → Element) : List Element → List Element
  | [] => []
  | e :: es => if e.id == id then f e :: es else e :: updateById id f es

/-- `showCustomMessage(title, message)`. -/
def showCustomMessage (title message : String) (p : Page) : Page :=
  let p0 := { p with trace := p.trace ++ [Call.showCustomMessage title message] }
  let body1 :=
    match getElementById "custom-message-modal" p0.body with
    | some _ => p0.body
    | none => p0.body ++ [customMessageModal]
  let body2 := updateById "custom-message-modal" (fun m => { m with title := title }) body1
  let body3 := updateById "custom-message-modal" (fun m => { m with message := message }) body2
  let body4 := updateById "custom-message-modal"
    (fun m => { m with classList := classListRemove "hidden" m.classList }) body3
  { p0 with body := body4 }

/-- The close handler applied to a modal element: `hidden` is added when the
element carries the handler, nothing happens otherwise. -/
def hideIfScripted (m : Element) : Element :=
  if m.onclick = some Handler.hideModal
  then { m with classList := classListAdd "hidden" m.classList }
  else m

/-- A click on `#modal-close-button`: the handler installed by
`showCustomMessage` adds `hidden` to the modal it was created with. -/
def modalCloseClick (p : Page) : Page :=
  { p with body := updateById "custom-message-modal" hideIfScripted p.body }

/-- Events that drive the modal. -/
inductive ModalEvent where
  | showMessage (title message : String)
  | closeClick
  deriving DecidableEq, Repr

/-- One modal event. -/
def modalStep (p : Page) : ModalEvent → Page
  | .showMessage t m => showCustomMessage t m p
  | .closeClick => modalCloseClick p

/-- A finite sequence of modal events, oldest first. -/
def modalRun (p : Page) (evs : List ModalEvent) : Page :=
  evs.foldl modalStep p

/-- Number of `#custom-message-modal` elements in the document. -/
def modalCount (p : Page) : Nat :=
  countById "custom-message-modal" p.body

/-- Whether an element carries the `hidden` class. -/
def Element.isHidden (e : Element) : Bool :=
  e.classList.contains "hidden"

/-! ## Login, register, logout -/

/-- `simulateApiCall(action)` run to completion: the spinner is shown, the
one-second timer elapses, the spinner is hidden again. -/
def simulateApiCall (_action : String) (p : Page) : Page :=
  let p1 := { p with loadingSpinner := p.loadingSpinner.map (classListRemove "hidden") }
  { p1 with loadingSpinner := p1.loadingSpinner.map (classListAdd "hidden") }

/-- `handleLogin`, with the values read from `#username` and `#password`, run
without another handler interleaved at its `await`. -/
def handleLogin (username password : String) (p : Page) : Page :=
  let p1 := simulateApiCall "Login" p
  if username == "user" && password == "pass" then
    { p1 with isAuthenticated := true, location := some "/dashboard/" }
  else
    let p2 := { p1 with
      trace := p1.trace ++ [Call.consoleError "Login failed: Invalid credentials"] }
    showCustomMessage "Login Failed" "Invalid username or password." p2

/-- `handleRegister`. -/
def handleRegister (p : Page) : Page :=
  let p1 := simulateApiCall "Register" p
  let p2 := showCustomMessage "Registration" "Registration complete. You can log in now." p1
  { p2 with location := some "/login/" }

/-- `handleLogout`. -/
def handleLogout (p : Page) : Page :=
  let p1 := simulateApiCall "Logout" p
  { p1 with isAuthenticated := false, location := some "/login/" }

/-! ## Renderers -/

/-- The `tr` built for one ticket in `populateTicketsTable`. -/
def ticketRow (ticket : Ticket) : Row :=
  { tag := "tr"
    className := ""
    innerHTML :=
      "\n            <td class=\"px-6 py-4 text-sm font-medium text-gray-900\">" ++
        ticket.title ++ "</td>" ++
      "\n            <td class=\"px-6 py-4\"><span class=\"badge\">" ++
        ticket.status ++ "</span></td>" ++
      "\n            <td class=\"px-6 py-4\"><span class=\"badge\">" ++
        ticket.priority ++ "</span></td>" ++
      "\n            <td class=\"px-6 py-4 text-sm text-gray-700\">" ++
        ticket.assignedTo ++ "</td>" ++
      "\n            <td class=\"px-6 py-4 text-sm text-gray-400\">" ++
        ticket.date ++ "</td>" ++
      "\n        " }

/-- `populateTicketsTable`: nothing without the container; otherwise the
container is emptied and one row per ticket is appended, in array order. -/
def populateTicketsTable (p : Page) : Page :=
  let p0 := { p with trace := p.trace ++ [Call.populateTicketsTable] }
  match p0.ticketsTableBody with
  | none => p0
  | some _ =>
    let emptied : List Row := []
    let rows := p0.sampleTickets.foldl (fun rows ticket => rows ++ [ticketRow ticket]) emptied
    { p0 with ticketsTableBody := some rows }

/-- The `div` built for one message in `populateChatMessages`. -/
def messageDiv (msg : ChatMessage) : Row :=
  { tag := "div"
    className := "flex " ++ (if msg.sender == "You" then "justify-end" else "justify-start")
    innerHTML :=
      "\n            <div class=\"max-w-[80%] p-3 rounded-lg shadow-sm " ++
        (if msg.sender == "You"
          then "bg-sky-500 text-white rounded-br-none"
          else "bg-gray-100 text-gray-900 rounded-bl-none") ++
        "\">" ++
      "\n                <p class=\"text-sm\">" ++ msg.message ++ "</p>" ++
      "\n                <span class=\"block text-xs mt-1 " ++
        (if msg.sender == "You" then "text-sky-100" else "text-gray-500") ++
        "\">" ++ msg.time ++ "</span>" ++
      "\n            </div>" ++
      "\n        " }

/-- `populateChatMessages`: nothing without the container; otherwise the
container is emptied and one `div` per message is appended, in array order.
The final scroll to the bottom is layout state and is not part of `Page`. -/
def populateChatMessages (p : Page) : Page :=
  let p0 := { p with trace := p.trace ++ [Call.populateChatMessages] }
  match p0.chatMessagesContainer with
  | none => p0
  | some _ =>
    let emptied : List Row := []
    let rows := p0.chatMessages.foldl (fun rows msg => rows ++ [messageDiv msg]) emptied
    { p0 with chatMessagesContainer := some rows }

/-! ## Sending a chat message -/

/-- ECMAScript `WhiteSpace` and `LineTerminator` code points, the ones that
`String.prototype.trim` strips. -/
def isJsWhiteSpace (c : Char) : Bool :=
  let n := c.toNat
  n == 0x09 || n == 0x0A || n == 0x0B || n == 0x0C || n == 0x0D || n == 0x20 ||
  n == 0xA0 || n == 0x1680 || (0x2000 ≤ n && n ≤ 0x200A) || n == 0x2028 || n == 0x2029 ||
  n == 0x202F || n == 0x205F || n == 0x3000 || n == 0xFEFF

/-- `trim` on the characters of a string. -/
def jsTrimChars (cs : List Char) : List Char :=
  ((cs.dropWhile isJsWhiteSpace).reverse.dropWhile isJsWhiteSpace).reverse

/-- `String.prototype.trim`. -/
def jsTrim (s : String) : String :=
  String.mk (jsTrimChars s.data)

/-- `handleSendMessage`, with `now` the string that
`new Date().toLocaleTimeString(...)` returns at the call.  Reading `.value` of a
missing input ends the call before anything changes. -/
def handleSendMessage (now : String) (p : Page) : Completion :=
  match p.newMessageInput with
  | none => .thrown p
  | some value =>
    let messageText := jsTrim value
    if messageText ≠ "" then
      let newMsg : ChatMessage :=
        { id := p.chatMessages.length + 1
          sender := "You"
          message := messageText
          time := now }
      let p1 := { p with chatMessages := p.chatMessages ++ [newMsg] }
      let p2 := populateChatMessages p1
      .normal { p2 with newMessageInput := some "" }
    else
      .normal p

/-- The user leaves `value` in the compose input and triggers
`handleSendMessage` (button click or Enter) at display time `now`. -/
structure SendEvent where
  value : String
  now : String
  deriving DecidableEq, Repr

/-- One send event: the input, when it exists, holds the typed value, then the
handler runs. -/
def sendStep (p : Page) (e : SendEvent) : Page :=
  (handleSendMessage e.now
    { p with newMessageInput := p.newMessageInput.map (fun _ => e.value) }).page

/-- A finite sequence of send events, oldest first. -/
def sendRun (p : Page) (evs : List SendEvent) : Page :=
  evs.foldl sendStep p

/-! ## Bootstrap -/

/-- The `DOMContentLoaded` listener up to the registration of the other
listeners, which are the events of the machines above.  The call into the icon
library has no effect on `Page` and is left out. -/
def domContentLoaded (p : Page) : Page :=
  let p1 := { p with isAuthenticated := p.dashboardPage }
  if p1.bodyClasses.contains "login-page-body" ||
      p1.bodyClasses.contains "register-page-body" then
    { p1 with
      mainHeader := p1.mainHeader.map (classListAdd "hidden")
      mainSidebar := p1.mainSidebar.map (classListAdd "hidden") }
  else if p1.isAuthenticated then
    let p2 := { p1 with
      mainHeader := p1.mainHeader.map (classListRemove "hidden")
      mainSidebar := p1.mainSidebar.map (classListRemove "hidden") }
    populateChatMessages (populateTicketsTable p2)
  else
    { p1 with
      mainHeader := p1.mainHeader.map (classListAdd "hidden")
      mainSidebar := p1.mainSidebar.map (classListAdd "hidden") }

/-- Number of calls of `populateTicketsTable` in a log. -/
def ticketRenders (t : List Call) : Nat :=
  t.count Call.populateTicketsTable

/-- Number of calls of `populateChatMessages` in a log. -/
def chatRenders (t : List Call) : Nat :=
  t.count Call.populateChatMessages

/-! ## A concrete document -/

/-- A dashboard document with every element present, after the script's
top-level code has run. -/
def examplePage : Page :=
  scriptLoad
    { isAuthenticated := false
      isSidebarOpen := false
      sampleTickets := []
      chatMessages := []
      loadingSpinner := some ["hidden"]
      mainHeader := some ["bg-white"]
      mainSidebar := some ["fixed", "-translate-x-full"]
      ticketsTableBody := some []
      chatMessagesContainer := some []
      newMessageInput := some ""
      bodyClasses := ["bg-gray-100"]
      dashboardPage := true
      body := []
      location := none
      trace := [] }

/-! ## Predicates used in the statements -/

/-- The property kept by every sidebar event once the sidebar element exists. -/
def SidebarInv (p : Page) : Prop :=
  p.mainSidebar.isSome = true ∧ overlayCount p = (if p.isSidebarOpen then 1 else 0)

/-- The record that `handleSendMessage` builds for a send event when the store
holds `n` records. -/
def sentMessage (n : Nat) (e : SendEvent) : ChatMessage :=
  { id := n + 1, sender := "You", message := jsTrim e.value, time := e.now }

/-- Ids of the records that a run added behind the `before` already stored. -/
def appendedIds (before : Nat) (after : List ChatMessage) : List Nat :=
  (after.drop before).map (fun m => m.id)

/-- The id invariant of the chat store. -/
def IdsInv (msgs : List ChatMessage) : Prop :=
  msgs.map (fun m => m.id) = List.range' 1 msgs.length

/-- Whether the body carries one of the two page-kind classes that mark the
login and register pages. -/
def isLoginOrRegister (p : Page) : Prop :=
  "login-page-body" ∈ p.bodyClasses ∨ "register-page-body" ∈ p.bodyClasses

/-- The header and the sidebar, where present, carry `hidden`. -/
def chromeHidden (before after : Page) : Prop :=
  after.mainHeader = before.mainHeader.map (classListAdd "hidden") ∧
  after.mainSidebar = before.mainSidebar.map (classListAdd "hidden") ∧
  (∀ cl, after.mainHeader = some cl → "hidden" ∈ cl) ∧
  (∀ cl, after.mainSidebar = some cl → "hidden" ∈ cl)

/-- The header and the sidebar, where present, do not carry `hidden`. -/
def chromeShown (before after : Page) : Prop :=
  after.mainHeader = before.mainHeader.map (classListRemove "hidden") ∧
  after.mainSidebar = before.mainSidebar.map (classListRemove "hidden") ∧
  (∀ cl, after.mainHeader = some cl → "hidden" ∉ cl) ∧
  (∀ cl, after.mainSidebar = some cl → "hidden" ∉ cl)

/-- The body that `showCustomMessage` starts its updates from: the modal is
created when the lookup finds none. -/
def ensureModal (body : List Element) : List Element :=
  match getElementById "custom-message-modal" body with
  | some _ => body
  | none => body ++ [customMessageModal]

/-- Every modal element of the document carries the close handler that
`showCustomMessage` installs: it was created by the script. -/
def ModalsScripted (body : List Element) : Prop :=
  ∀ e ∈ body, e.id = "custom-message-modal" → e.onclick = some Handler.hideModal

/-! # Properties -/

/-! ## Lookup lemmas -/

theorem countById_append (id : String) (a b : List Element) :
    countById id (a ++ b) = countById id a + countById id b := by
  simp [countById, List.countP_append]

theorem getElementById_eq_none_iff (id : String) (body : List Element) :
    getElementById id body = none ↔ countById id body = 0 := by
  induction body with
  | nil => simp [getElementById, countById]
  | cons e es ih =>
    by_cases h : e.id = id
    · simp [getElementById, countById, List.find?_cons, List.countP_cons, h]
    · simp only [getElementById, countById] at ih
      simp [getElementById, countById, List.find?_cons, List.countP_cons, h, ih]

theorem countById_removeById (id : String) (body : List Element) :
    countById id (removeById id body) = countById id body - 1 := by
  induction body with
  | nil => simp [removeById, countById]
  | cons e es ih =>
    by_cases h : e.id = id
    · simp [removeById, countById, List.eraseP_cons, List.countP_cons, h]
    · simp only [removeById, countById] at ih
      simp [removeById, countById, List.eraseP_cons, List.countP_cons, h, ih]

theorem countById_sidebarOverlay : countById "sidebar-overlay" [sidebarOverlay] = 1 := by
  decide

/-! ## Sidebar lemmas -/

theorem toggleSidebar_of_closed (p : Page) (cl : List String)
    (hclosed : p.isSidebarOpen = false) (hsb : p.mainSidebar = some cl) :
    toggleSidebar p = .normal { p with
      isSidebarOpen := true
      mainSidebar := some (classListAdd "translate-x-0" (classListRemove "-translate-x-full" cl))
      body := p.body ++ [sidebarOverlay] } := by
  simp [toggleSidebar, hclosed, hsb]

theorem toggleSidebar_of_open (p : Page) (cl : List String)
    (hopen : p.isSidebarOpen = true) (hsb : p.mainSidebar = some cl) :
    toggleSidebar p = .normal { p with
      isSidebarOpen := false
      mainSidebar := some (classListAdd "-translate-x-full" (classListRemove "translate-x-0" cl))
      body := removeById "sidebar-overlay" p.body } := by
  have hrm : getElementById "sidebar-overlay" p.body = none →
      removeById "sidebar-overlay" p.body = p.body := by
    intro h
    simp only [getElementById, List.find?_eq_none] at h
    exact List.eraseP_of_forall_not (fun a ha => by simpa using h a ha)
  cases hg : getElementById "sidebar-overlay" p.body with
  | none => simp [toggleSidebar, hopen, hsb, hg, hrm hg]
  | some e => simp [toggleSidebar, hopen, hsb, hg]

/-- Without a `#main-sidebar` element `toggleSidebar` flips the flag and then
throws, touching nothing else. -/
theorem toggleSidebar_of_missing_sidebar (p : Page) (hsb : p.mainSidebar = none) :
    toggleSidebar p = .thrown { p with isSidebarOpen := !p.isSidebarOpen } := by
  cases ho : p.isSidebarOpen <;> simp [toggleSidebar, ho, hsb]

theorem sidebarInv_toggle (p : Page) (h : SidebarInv p) : SidebarInv (toggleSidebar p).page := by
  obtain ⟨hs, hc⟩ := h
  obtain ⟨cl, hcl⟩ := Option.isSome_iff_exists.mp hs
  cases ho : p.isSidebarOpen with
  | false =>
    rw [toggleSidebar_of_closed p cl ho hcl]
    simp only [ho] at hc
    simp only [overlayCount] at hc
    simp [SidebarInv, Completion.page, overlayCount, countById_append, hc,
      countById_sidebarOverlay]
  | true =>
    rw [toggleSidebar_of_open p cl ho hcl]
    simp only [ho] at hc
    simp only [overlayCount] at hc
    simp [SidebarInv, Completion.page, overlayCount, countById_removeById, hc]

theorem sidebarInv_step (p : Page) (e : SidebarEvent) (h : SidebarInv p) :
    SidebarInv (sidebarStep p e) := by
  cases e with
  | toggle => exact sidebarInv_toggle p h
  | resize w =>
    simp only [sidebarStep, onResize]
    split
    · exact sidebarInv_toggle p h
    · exact h

theorem sidebarInv_run (evs : List SidebarEvent) (p : Page) (h : SidebarInv p) :
    SidebarInv (sidebarRun p evs) := by
  induction evs generalizing p with
  | nil => exact h
  | cons e es ih => exact ih (sidebarStep p e) (sidebarInv_step p e h)

/-- On a document that has the `#main-sidebar` element: from a closed sidebar
with no overlay, after any finite sequence of `toggleSidebar` calls and resize
events of any width, the number of `#sidebar-overlay` elements is 1 when
`isSidebarOpen` is true and 0 when it is false; so it never exceeds 1. -/
theorem sidebar_overlay_count_invariant (p : Page) (cl : List String)
    (evs : List SidebarEvent)
    (hclosed : p.isSidebarOpen = false) (hsb : p.mainSidebar = some cl)
    (hov : overlayCount p = 0) :
    overlayCount (sidebarRun p evs) = (if (sidebarRun p evs).isSidebarOpen then 1 else 0) ∧
    overlayCount (sidebarRun p evs) ≤ 1 := by
  have hinv : SidebarInv (sidebarRun p evs) :=
    sidebarInv_run evs p ⟨by simp [hsb], by simp [hov, hclosed]⟩
  refine ⟨hinv.2, ?_⟩
  rw [hinv.2]
  split <;> simp

/-- The overlay invariant on the example document: toggle, wide resize, two
toggles, narrow resize. -/
theorem sidebar_overlay_count_invariant_witness :
    overlayCount (sidebarRun examplePage [.toggle, .resize 1024, .toggle, .toggle, .resize 320])
      = (if (sidebarRun examplePage
          [.toggle, .resize 1024, .toggle, .toggle, .resize 320]).isSidebarOpen then 1 else 0) ∧
    overlayCount (sidebarRun examplePage
      [.toggle, .resize 1024, .toggle, .toggle, .resize 320]) ≤ 1 :=
  sidebar_overlay_count_invariant examplePage ["fixed", "-translate-x-full"] _ rfl rfl rfl

/-! ## Class-list lemmas -/

theorem mem_classListAdd_self (tok : String) (cl : List String) :
    tok ∈ classListAdd tok cl := by
  unfold classListAdd
  split <;> simp_all

theorem mem_classListAdd_of_ne (a tok : String) (cl : List String) (h : a ≠ tok) :
    a ∈ classListAdd tok cl ↔ a ∈ cl := by
  unfold classListAdd
  split <;> simp_all

theorem not_mem_classListRemove_self (tok : String) (cl : List String) :
    tok ∉ classListRemove tok cl := by
  simp [classListRemove]

/-- C1, failing input: on a document without `#main-sidebar`, starting closed
with no overlay, one `toggleSidebar` call flips `isSidebarOpen` to true and then
throws at the unguarded `mainSidebar.classList`, before any overlay is created:
the sidebar counts as open with zero overlays, where the invariant asks for
one.  A following resize to width 1024 throws the same way and flips the flag
back. -/
theorem toggle_without_sidebar_opens_without_overlay :
    { examplePage with mainSidebar := none }.isSidebarOpen = false ∧
    overlayCount { examplePage with mainSidebar := none } = 0 ∧
    toggleSidebar { examplePage with mainSidebar := none }
      = .thrown { examplePage with mainSidebar := none, isSidebarOpen := true } ∧
    (sidebarRun { examplePage with mainSidebar := none } [.toggle]).isSidebarOpen = true ∧
    overlayCount (sidebarRun { examplePage with mainSidebar := none } [.toggle]) = 0 ∧
    ¬ (overlayCount (sidebarRun { examplePage with mainSidebar := none } [.toggle])
        = (if (sidebarRun { examplePage with mainSidebar := none } [.toggle]).isSidebarOpen
            then 1 else 0)) ∧
    onResize 1024 (sidebarRun { examplePage with mainSidebar := none } [.toggle])
      = .thrown { examplePage with mainSidebar := none } := by
  decide

/-- C2, counterexample: with the sidebar open and two overlays in the document,
a resize to width 768 closes the sidebar and leaves one overlay, not zero. -/
theorem resize_two_overlays_leaves_one :
    (onResize 768 { examplePage with
        isSidebarOpen := true, body := [sidebarOverlay, sidebarOverlay] }).page.isSidebarOpen
      = false ∧
    overlayCount { examplePage with
        isSidebarOpen := true, body := [sidebarOverlay, sidebarOverlay] } = 2 ∧
    overlayCount (onResize 768 { examplePage with
        isSidebarOpen := true, body := [sidebarOverlay, sidebarOverlay] }).page = 1 ∧
    ¬ overlayCount (onResize 768 { examplePage with
        isSidebarOpen := true, body := [sidebarOverlay, sidebarOverlay] }).page = 0 := by
  decide

/-- C2, amended: with the sidebar open, the `#main-sidebar` element present and
the width at least 768, one run of the resize handler leaves `isSidebarOpen`
false and, of the `n` overlays present before, `n - 1` in the document (0 when
`n = 0`); in particular zero overlays when `n` is at most 1. -/
theorem resize_wide_closes_and_removes_one_overlay (p : Page) (cl : List String) (w : Nat)
    (hw : 768 ≤ w) (hopen : p.isSidebarOpen = true) (hsb : p.mainSidebar = some cl) :
    (onResize w p).page.isSidebarOpen = false ∧
    overlayCount (onResize w p).page = overlayCount p - 1 ∧
    (overlayCount p ≤ 1 → overlayCount (onResize w p).page = 0) := by
  have hres : onResize w p = toggleSidebar p := by simp [onResize, hw, hopen]
  rw [hres, toggleSidebar_of_open p cl hopen hsb]
  simp only [Completion.page, overlayCount, countById_removeById]
  refine ⟨trivial, trivial, fun h => by omega⟩

/-- Witness for C2 (amended): the example document after one toggle, resized to
width 1024. -/
theorem resize_wide_closes_and_removes_one_overlay_witness :
    (onResize 1024 (toggleSidebar examplePage).page).page.isSidebarOpen = false ∧
    overlayCount (onResize 1024 (toggleSidebar examplePage).page).page
      = overlayCount (toggleSidebar examplePage).page - 1 ∧
    (overlayCount (toggleSidebar examplePage).page ≤ 1 →
      overlayCount (onResize 1024 (toggleSidebar examplePage).page).page = 0) :=
  resize_wide_closes_and_removes_one_overlay (toggleSidebar examplePage).page
    ["fixed", "translate-x-0"] 1024 (by decide) rfl rfl

/-- C3: from a closed sidebar with no overlay, two `toggleSidebar` calls in a row
both complete; after the first the sidebar is open with exactly one overlay;
after the second it is closed with no overlay and the sidebar element carries
`-translate-x-full` and not `translate-x-0`. -/
theorem toggleSidebar_twice_from_closed (p : Page) (cl : List String)
    (hclosed : p.isSidebarOpen = false) (hov : overlayCount p = 0)
    (hsb : p.mainSidebar = some cl) :
    ∃ p1 p2 cl2, toggleSidebar p = .normal p1 ∧ toggleSidebar p1 = .normal p2 ∧
      p1.isSidebarOpen = true ∧ overlayCount p1 = 1 ∧
      p2.isSidebarOpen = false ∧ overlayCount p2 = 0 ∧
      p2.mainSidebar = some cl2 ∧ "-translate-x-full" ∈ cl2 ∧ "translate-x-0" ∉ cl2 := by
  have h1 := toggleSidebar_of_closed p cl hclosed hsb
  have h2 := toggleSidebar_of_open _ _
    (show (Page.isSidebarOpen { p with
      isSidebarOpen := true
      mainSidebar := some (classListAdd "translate-x-0" (classListRemove "-translate-x-full" cl))
      body := p.body ++ [sidebarOverlay] }) = true from rfl) rfl
  simp only [overlayCount] at hov
  refine ⟨_, _, _, h1, h2, rfl, ?_, rfl, ?_, rfl, mem_classListAdd_self _ _, ?_⟩
  · simp [overlayCount, countById_append, hov, countById_sidebarOverlay]
  · simp [overlayCount, countById_removeById, countById_append, hov, countById_sidebarOverlay]
  · rw [mem_classListAdd_of_ne _ _ _ (by decide)]
    exact not_mem_classListRemove_self _ _

/-- Witness for C3 on the example document. -/
theorem toggleSidebar_twice_from_closed_witness :
    ∃ p1 p2 cl2, toggleSidebar examplePage = .normal p1 ∧ toggleSidebar p1 = .normal p2 ∧
      p1.isSidebarOpen = true ∧ overlayCount p1 = 1 ∧
      p2.isSidebarOpen = false ∧ overlayCount p2 = 0 ∧
      p2.mainSidebar = some cl2 ∧ "-translate-x-full" ∈ cl2 ∧ "translate-x-0" ∉ cl2 :=
  toggleSidebar_twice_from_closed examplePage ["fixed", "-translate-x-full"] rfl rfl rfl

/-! ## Trim lemmas -/

theorem dropWhile_eq_nil_iff_all (cs : List Char) :
    cs.dropWhile isJsWhiteSpace = [] ↔ ∀ c ∈ cs, isJsWhiteSpace c = true := by
  simp

theorem jsTrimChars_eq_nil_iff (cs : List Char) :
    jsTrimChars cs = [] ↔ ∀ c ∈ cs, isJsWhiteSpace c = true := by
  unfold jsTrimChars
  constructor
  · intro h
    rw [List.reverse_eq_nil_iff, List.dropWhile_eq_nil_iff] at h
    by_contra hne
    have hd : cs.dropWhile isJsWhiteSpace ≠ [] := by
      intro h0
      exact hne ((dropWhile_eq_nil_iff_all cs).mp h0)
    have hhead := List.head_dropWhile_not isJsWhiteSpace cs hd
    have hmem : (cs.dropWhile isJsWhiteSpace).head hd ∈ (cs.dropWhile isJsWhiteSpace).reverse :=
      List.mem_reverse.mpr (List.head_mem hd)
    have := h _ hmem
    simp [this] at hhead
  · intro h
    rw [(dropWhile_eq_nil_iff_all cs).mpr h]
    rfl

theorem jsTrim_eq_empty_iff (s : String) :
    jsTrim s = "" ↔ ∀ c ∈ s.data, isJsWhiteSpace c = true := by
  rw [← jsTrimChars_eq_nil_iff]
  unfold jsTrim
  constructor
  · intro h
    have := congrArg String.data h
    simpa using this
  · intro h
    rw [h]

/-! ## Renderer lemmas -/

theorem foldl_append_single {α β : Type} (f : α → β) (xs : List α) (acc : List β) :
    xs.foldl (fun rows x => rows ++ [f x]) acc = acc ++ xs.map f := by
  induction xs generalizing acc with
  | nil => simp
  | cons x xs ih => simp [ih]

theorem populateChatMessages_chatMessages (p : Page) :
    (populateChatMessages p).chatMessages = p.chatMessages := by
  unfold populateChatMessages
  cases h : p.chatMessagesContainer <;> simp [h]

theorem populateChatMessages_newMessageInput (p : Page) :
    (populateChatMessages p).newMessageInput = p.newMessageInput := by
  unfold populateChatMessages
  cases h : p.chatMessagesContainer <;> simp [h]

/-! ## Send lemmas -/

theorem handleSendMessage_blank (now s : String) (p : Page)
    (hin : p.newMessageInput = some s) (hblank : jsTrim s = "") :
    handleSendMessage now p = .normal p := by
  simp [handleSendMessage, hin, hblank]

theorem handleSendMessage_nonblank (now s : String) (p : Page)
    (hin : p.newMessageInput = some s) (hne : jsTrim s ≠ "") :
    handleSendMessage now p = .normal
      { populateChatMessages { p with chatMessages := p.chatMessages ++
          [{ id := p.chatMessages.length + 1, sender := "You", message := jsTrim s,
             time := now }] } with newMessageInput := some "" } := by
  simp [handleSendMessage, hin, hne]

/-- C4: for every page whose compose input holds `s`: the trimmed `s` is empty
exactly when every character of `s` is white space; in that case
`handleSendMessage` changes nothing (same `chatMessages`, input still `s`);
otherwise it appends one record with id `length + 1`, sender `You`, the trimmed
`s` as message and the current time, and sets the input to the empty string. -/
theorem handleSendMessage_appends_iff_nonblank (p : Page) (s now : String)
    (hin : p.newMessageInput = some s) :
    (jsTrim s = "" ↔ ∀ c ∈ s.data, isJsWhiteSpace c = true) ∧
    (jsTrim s = "" →
      handleSendMessage now p = .normal p ∧
      (handleSendMessage now p).page.chatMessages = p.chatMessages ∧
      (handleSendMessage now p).page.newMessageInput = some s) ∧
    (jsTrim s ≠ "" →
      ∃ q, handleSendMessage now p = .normal q ∧
        q.chatMessages = p.chatMessages ++
          [{ id := p.chatMessages.length + 1, sender := "You", message := jsTrim s,
             time := now }] ∧
        q.newMessageInput = some "") := by
  refine ⟨jsTrim_eq_empty_iff s, ?_, ?_⟩
  · intro hb
    rw [handleSendMessage_blank now s p hin hb]
    exact ⟨rfl, rfl, hin⟩
  · intro hne
    refine ⟨_, handleSendMessage_nonblank now s p hin hne, ?_, rfl⟩
    simp [populateChatMessages_chatMessages]

/-- Witness for C4: the example document with `" hi "` in the input. -/
theorem handleSendMessage_appends_iff_nonblank_witness :
    (jsTrim " hi " = "" ↔ ∀ c ∈ " hi ".data, isJsWhiteSpace c = true) ∧
    (jsTrim " hi " = "" →
      handleSendMessage "10:05 AM" { examplePage with newMessageInput := some " hi " }
        = .normal { examplePage with newMessageInput := some " hi " } ∧
      (handleSendMessage "10:05 AM"
        { examplePage with newMessageInput := some " hi " }).page.chatMessages
        = chatMessagesLiteral ∧
      (handleSendMessage "10:05 AM"
        { examplePage with newMessageInput := some " hi " }).page.newMessageInput
        = some " hi ") ∧
    (jsTrim " hi " ≠ "" →
      ∃ q, handleSendMessage "10:05 AM" { examplePage with newMessageInput := some " hi " }
          = .normal q ∧
        q.chatMessages = chatMessagesLiteral ++
          [{ id := chatMessagesLiteral.length + 1, sender := "You", message := jsTrim " hi ",
             time := "10:05 AM" }] ∧
        q.newMessageInput = some "") :=
  handleSendMessage_appends_iff_nonblank
    { examplePage with newMessageInput := some " hi " } " hi " "10:05 AM" rfl

theorem sendStep_chatMessages (p : Page) (e : SendEvent) :
    (sendStep p e).chatMessages =
      if p.newMessageInput.isSome = true ∧ jsTrim e.value ≠ ""
      then p.chatMessages ++ [sentMessage p.chatMessages.length e]
      else p.chatMessages := by
  cases hin : p.newMessageInput with
  | none => simp [sendStep, handleSendMessage, hin, Completion.page]
  | some v =>
    by_cases hb : jsTrim e.value = ""
    · simp [sendStep, handleSendMessage, hin, hb, Completion.page]
    · simp [sendStep, handleSendMessage, hin, hb, Completion.page,
        populateChatMessages_chatMessages, sentMessage]

theorem sendStep_newMessageInput_isSome (p : Page) (e : SendEvent) :
    (sendStep p e).newMessageInput.isSome = p.newMessageInput.isSome := by
  cases hin : p.newMessageInput with
  | none => simp [sendStep, handleSendMessage, hin, Completion.page]
  | some v =>
    by_cases hb : jsTrim e.value = ""
    · simp [sendStep, handleSendMessage, hin, hb, Completion.page]
    · simp [sendStep, handleSendMessage, hin, hb, Completion.page]

theorem sendRun_nonblank (evs : List SendEvent) (p : Page)
    (hin : p.newMessageInput.isSome = true) (hne : ∀ e ∈ evs, jsTrim e.value ≠ "") :
    (sendRun p evs).chatMessages = p.chatMessages ++
      (evs.enumFrom p.chatMessages.length).map (fun ie => sentMessage ie.1 ie.2) := by
  induction evs generalizing p with
  | nil => simp [sendRun]
  | cons e es ih =>
    have hstep : (sendStep p e).chatMessages
        = p.chatMessages ++ [sentMessage p.chatMessages.length e] := by
      rw [sendStep_chatMessages]
      simp [hin, hne e (List.mem_cons_self _ _)]
    have hin1 : (sendStep p e).newMessageInput.isSome = true := by
      rw [sendStep_newMessageInput_isSome]; exact hin
    have := ih (sendStep p e) hin1 (fun x hx => hne x (List.mem_cons_of_mem _ hx))
    simp only [sendRun, List.foldl_cons] at this ⊢
    rw [this, hstep]
    simp [List.enumFrom_cons]

theorem map_id_enumFrom_sentMessage (evs : List SendEvent) (n : Nat) :
    ((evs.enumFrom n).map (fun ie => sentMessage ie.1 ie.2)).map (fun m => m.id)
      = List.range' (n + 1) evs.length := by
  induction evs generalizing n with
  | nil => simp
  | cons e es ih =>
    simp only [List.enumFrom_cons, List.map_cons, List.length_cons, List.range'_succ]
    rw [ih (n + 1)]
    simp [sentMessage]

/-- C5, counterexample: one non-blank send on the freshly loaded example
document assigns id 4 and leaves four records, not id 1 and one record. -/
theorem first_append_gets_id_four :
    jsTrim "hi" ≠ "" ∧
    appendedIds 3 (sendRun examplePage [{ value := "hi", now := "10:05 AM" }]).chatMessages
      = [4] ∧
    (sendRun examplePage [{ value := "hi", now := "10:05 AM" }]).chatMessages.length = 4 ∧
    ¬ (appendedIds 3 (sendRun examplePage [{ value := "hi", now := "10:05 AM" }]).chatMessages
        = List.range' 1 1 ∧
      (sendRun examplePage [{ value := "hi", now := "10:05 AM" }]).chatMessages.length = 1) := by
  decide

/-- C5, amended: after `N` non-blank sends on a freshly loaded page with a
compose input, the store is its three initial records followed by the `N` sent
ones; the ids assigned are 4, 5, ..., `N + 3` in call order and the length is
`3 + N`. -/
theorem appended_ids_continue_after_seed (doc : Page) (evs : List SendEvent)
    (hin : doc.newMessageInput.isSome = true) (hne : ∀ e ∈ evs, jsTrim e.value ≠ "") :
    (sendRun (scriptLoad doc) evs).chatMessages = chatMessagesLiteral ++
      (evs.enumFrom 3).map (fun ie => sentMessage ie.1 ie.2) ∧
    appendedIds 3 (sendRun (scriptLoad doc) evs).chatMessages = List.range' 4 evs.length ∧
    (sendRun (scriptLoad doc) evs).chatMessages.length = 3 + evs.length := by
  have h := sendRun_nonblank evs (scriptLoad doc) hin hne
  have hlen : (scriptLoad doc).chatMessages.length = 3 := rfl
  have hlit : (scriptLoad doc).chatMessages = chatMessagesLiteral := rfl
  rw [hlen, hlit] at h
  have hl3 : chatMessagesLiteral.length = 3 := rfl
  refine ⟨h, ?_, ?_⟩
  · rw [h, appendedIds, ← hl3, List.drop_left, hl3]
    exact map_id_enumFrom_sentMessage evs 3
  · rw [h]
    simp [hl3]

/-- Witness for C5 (amended): two sends on the example document. -/
theorem appended_ids_continue_after_seed_witness :
    (sendRun (scriptLoad examplePage)
        [{ value := "hi", now := "10:05 AM" }, { value := " there ", now := "10:06 AM" }]
      ).chatMessages = chatMessagesLiteral ++
      ([{ value := "hi", now := "10:05 AM" }, { value := " there ", now := "10:06 AM" }].enumFrom
        3).map (fun ie => sentMessage ie.1 ie.2) ∧
    appendedIds 3 (sendRun (scriptLoad examplePage)
        [{ value := "hi", now := "10:05 AM" }, { value := " there ", now := "10:06 AM" }]
      ).chatMessages = List.range' 4
        [({ value := "hi", now := "10:05 AM" } : SendEvent),
          { value := " there ", now := "10:06 AM" }].length ∧
    (sendRun (scriptLoad examplePage)
        [{ value := "hi", now := "10:05 AM" }, { value := " there ", now := "10:06 AM" }]
      ).chatMessages.length = 3 +
        [({ value := "hi", now := "10:05 AM" } : SendEvent),
          { value := " there ", now := "10:06 AM" }].length :=
  appended_ids_continue_after_seed examplePage
    [{ value := "hi", now := "10:05 AM" }, { value := " there ", now := "10:06 AM" }]
    rfl (by decide)

theorem idsInv_step (p : Page) (e : SendEvent) (h : IdsInv p.chatMessages) :
    IdsInv (sendStep p e).chatMessages := by
  rw [sendStep_chatMessages]
  split
  · unfold IdsInv at h ⊢
    simp only [List.map_append, List.length_append, List.length_singleton, List.map_cons,
      List.map_nil, h, List.range'_concat]
    simp [sentMessage, Nat.add_comm]
  · exact h

theorem idsInv_run (evs : List SendEvent) (p : Page) (h : IdsInv p.chatMessages) :
    IdsInv (sendRun p evs).chatMessages := by
  induction evs generalizing p with
  | nil => exact h
  | cons e es ih => exact ih (sendStep p e) (idsInv_step p e h)

theorem idsInv_literal : IdsInv chatMessagesLiteral := by
  unfold IdsInv
  decide

/-- C6: in every `chatMessages` list reached from the freshly loaded page by
send events with arbitrary input strings, the record at position `i` (from 0)
has id `i + 1`, the ids are strictly increasing in list order and pairwise
distinct, and one more send either leaves the list as it is or appends a
record with id equal to the previous length plus one. -/
theorem chat_ids_are_positions (doc : Page) (evs : List SendEvent) :
    (∀ i m, (sendRun (scriptLoad doc) evs).chatMessages[i]? = some m → m.id = i + 1) ∧
    ((sendRun (scriptLoad doc) evs).chatMessages.map (fun m => m.id)).Pairwise (· < ·) ∧
    ((sendRun (scriptLoad doc) evs).chatMessages.map (fun m => m.id)).Nodup ∧
    (∀ e, (sendStep (sendRun (scriptLoad doc) evs) e).chatMessages =
      if (sendRun (scriptLoad doc) evs).newMessageInput.isSome = true ∧ jsTrim e.value ≠ ""
      then (sendRun (scriptLoad doc) evs).chatMessages ++
        [{ id := (sendRun (scriptLoad doc) evs).chatMessages.length + 1, sender := "You",
           message := jsTrim e.value, time := e.now }]
      else (sendRun (scriptLoad doc) evs).chatMessages) := by
  have hinv : IdsInv (sendRun (scriptLoad doc) evs).chatMessages :=
    idsInv_run evs (scriptLoad doc) idsInv_literal
  unfold IdsInv at hinv
  refine ⟨?_, ?_, ?_, fun e => sendStep_chatMessages _ e⟩
  · intro i m hm
    have h1 : ((sendRun (scriptLoad doc) evs).chatMessages.map (fun m => m.id))[i]?
        = some m.id := by
      simp [List.getElem?_map, hm]
    rw [hinv] at h1
    have hlt : i < (sendRun (scriptLoad doc) evs).chatMessages.length := by
      rcases List.getElem?_eq_some_iff.mp hm with ⟨h, _⟩
      exact h
    rw [List.getElem?_range' _ _ hlt] at h1
    simp at h1
    omega
  · rw [hinv]
    exact List.pairwise_lt_range' 1 _
  · rw [hinv]
    exact List.nodup_range' 1 _

/-! ## Login -/

/-- C7, counterexample: for the pair `("user", "wrong")` the one
`showCustomMessage` call carries the message `Invalid username or password.`,
ending in a full stop; no call carries `Invalid username or password`. -/
theorem login_failure_message_has_full_stop :
    (handleLogin "user" "wrong" examplePage).trace =
      [Call.consoleError "Login failed: Invalid credentials",
       Call.showCustomMessage "Login Failed" "Invalid username or password."] ∧
    ¬ ∃ title, Call.showCustomMessage title "Invalid username or password"
        ∈ (handleLogin "user" "wrong" examplePage).trace := by
  have h : (handleLogin "user" "wrong" examplePage).trace =
      [Call.consoleError "Login failed: Invalid credentials",
       Call.showCustomMessage "Login Failed" "Invalid username or password."] := by
    decide
  refine ⟨h, ?_⟩
  rw [h]
  rintro ⟨title, ht⟩
  simp at ht

/-- C7, amended: with `isAuthenticated` false before the call: for the pair
`("user", "pass")`, `handleLogin` sets `isAuthenticated`, assigns the location
`/dashboard/` and shows no modal; for every other pair it leaves
`isAuthenticated` false, assigns no location, and calls `showCustomMessage`
once, with title `Login Failed` and message `Invalid username or password.`,
after one `console.error`. -/
theorem handleLogin_outcome (p : Page) (username password : String)
    (hauth : p.isAuthenticated = false) :
    (username = "user" ∧ password = "pass" →
      (handleLogin username password p).isAuthenticated = true ∧
      (handleLogin username password p).location = some "/dashboard/" ∧
      (handleLogin username password p).trace = p.trace ∧
      (handleLogin username password p).body = p.body) ∧
    (¬ (username = "user" ∧ password = "pass") →
      (handleLogin username password p).isAuthenticated = false ∧
      (handleLogin username password p).location = p.location ∧
      (handleLogin username password p).trace = p.trace ++
        [Call.consoleError "Login failed: Invalid credentials",
         Call.showCustomMessage "Login Failed" "Invalid username or password."]) := by
  constructor
  · rintro ⟨hu, hp⟩
    simp [handleLogin, hu, hp, simulateApiCall]
  · intro hne
    have hcond : (username == "user" && password == "pass") = false := by
      by_contra hc
      simp only [Bool.not_eq_false, Bool.and_eq_true, beq_iff_eq] at hc
      exact hne hc
    simp [handleLogin, hcond, simulateApiCall, showCustomMessage, hauth]

/-- Witness for C7 (amended): the pair `("user", "wrong")` on the example
document. -/
theorem handleLogin_outcome_witness :
    ("user" = "user" ∧ "wrong" = "pass" →
      (handleLogin "user" "wrong" examplePage).isAuthenticated = true ∧
      (handleLogin "user" "wrong" examplePage).location = some "/dashboard/" ∧
      (handleLogin "user" "wrong" examplePage).trace = examplePage.trace ∧
      (handleLogin "user" "wrong" examplePage).body = examplePage.body) ∧
    (¬ ("user" = "user" ∧ "wrong" = "pass") →
      (handleLogin "user" "wrong" examplePage).isAuthenticated = false ∧
      (handleLogin "user" "wrong" examplePage).location = examplePage.location ∧
      (handleLogin "user" "wrong" examplePage).trace = examplePage.trace ++
        [Call.consoleError "Login failed: Invalid credentials",
         Call.showCustomMessage "Login Failed" "Invalid username or password."]) :=
  handleLogin_outcome examplePage "user" "wrong" rfl

/-! ## Bootstrap -/

theorem populateTicketsTable_trace (p : Page) :
    (populateTicketsTable p).trace = p.trace ++ [Call.populateTicketsTable] := by
  unfold populateTicketsTable
  cases h : p.ticketsTableBody <;> simp [h]

theorem populateChatMessages_trace (p : Page) :
    (populateChatMessages p).trace = p.trace ++ [Call.populateChatMessages] := by
  unfold populateChatMessages
  cases h : p.chatMessagesContainer <;> simp [h]

theorem populateTicketsTable_mainHeader (p : Page) :
    (populateTicketsTable p).mainHeader = p.mainHeader := by
  unfold populateTicketsTable
  cases h : p.ticketsTableBody <;> simp [h]

theorem populateTicketsTable_mainSidebar (p : Page) :
    (populateTicketsTable p).mainSidebar = p.mainSidebar := by
  unfold populateTicketsTable
  cases h : p.ticketsTableBody <;> simp [h]

theorem populateChatMessages_mainHeader (p : Page) :
    (populateChatMessages p).mainHeader = p.mainHeader := by
  unfold populateChatMessages
  cases h : p.chatMessagesContainer <;> simp [h]

theorem populateChatMessages_mainSidebar (p : Page) :
    (populateChatMessages p).mainSidebar = p.mainSidebar := by
  unfold populateChatMessages
  cases h : p.chatMessagesContainer <;> simp [h]

theorem chromeHidden_of_eq (before after : Page)
    (hh : after.mainHeader = before.mainHeader.map (classListAdd "hidden"))
    (hs : after.mainSidebar = before.mainSidebar.map (classListAdd "hidden")) :
    chromeHidden before after := by
  refine ⟨hh, hs, ?_, ?_⟩
  · intro cl hcl
    rw [hh] at hcl
    obtain ⟨a, _, rfl⟩ := Option.map_eq_some'.mp hcl
    exact mem_classListAdd_self _ _
  · intro cl hcl
    rw [hs] at hcl
    obtain ⟨a, _, rfl⟩ := Option.map_eq_some'.mp hcl
    exact mem_classListAdd_self _ _

theorem chromeShown_of_eq (before after : Page)
    (hh : after.mainHeader = before.mainHeader.map (classListRemove "hidden"))
    (hs : after.mainSidebar = before.mainSidebar.map (classListRemove "hidden")) :
    chromeShown before after := by
  refine ⟨hh, hs, ?_, ?_⟩
  · intro cl hcl
    rw [hh] at hcl
    obtain ⟨a, _, rfl⟩ := Option.map_eq_some'.mp hcl
    exact not_mem_classListRemove_self _ _
  · intro cl hcl
    rw [hs] at hcl
    obtain ⟨a, _, rfl⟩ := Option.map_eq_some'.mp hcl
    exact not_mem_classListRemove_self _ _

/-- C8: after the `DOMContentLoaded` listener: on a login or register page the
header and sidebar carry `hidden` and neither renderer is called, whatever the
dashboard container; on any other page with the dashboard container present
they do not carry `hidden` and each renderer is called exactly once; on any
other page without it they carry `hidden` and neither renderer is called. -/
theorem domContentLoaded_chrome_and_renders (p : Page) :
    (isLoginOrRegister p →
      chromeHidden p (domContentLoaded p) ∧ (domContentLoaded p).trace = p.trace) ∧
    (¬ isLoginOrRegister p → p.dashboardPage = true →
      chromeShown p (domContentLoaded p) ∧
      (domContentLoaded p).trace = p.trace ++
        [Call.populateTicketsTable, Call.populateChatMessages] ∧
      ticketRenders (domContentLoaded p).trace = ticketRenders p.trace + 1 ∧
      chatRenders (domContentLoaded p).trace = chatRenders p.trace + 1) ∧
    (¬ isLoginOrRegister p → p.dashboardPage = false →
      chromeHidden p (domContentLoaded p) ∧ (domContentLoaded p).trace = p.trace) := by
  refine ⟨?_, ?_, ?_⟩
  · intro hk
    have hc : (p.bodyClasses.contains "login-page-body" ||
        p.bodyClasses.contains "register-page-body") = true := by
      simpa [isLoginOrRegister] using hk
    have hd : domContentLoaded p = { p with
        isAuthenticated := p.dashboardPage
        mainHeader := p.mainHeader.map (classListAdd "hidden")
        mainSidebar := p.mainSidebar.map (classListAdd "hidden") } := by
      simp only [domContentLoaded, hc, if_true]
    rw [hd]
    exact ⟨chromeHidden_of_eq _ _ rfl rfl, rfl⟩
  · intro hk hdash
    have hc : (p.bodyClasses.contains "login-page-body" ||
        p.bodyClasses.contains "register-page-body") = false := by
      simpa [isLoginOrRegister] using hk
    have hd : domContentLoaded p = populateChatMessages (populateTicketsTable { p with
        isAuthenticated := p.dashboardPage
        mainHeader := p.mainHeader.map (classListRemove "hidden")
        mainSidebar := p.mainSidebar.map (classListRemove "hidden") }) := by
      simp only [domContentLoaded, hc, hdash, Bool.false_eq_true, if_false, if_true]
    have htr : (domContentLoaded p).trace = p.trace ++
        [Call.populateTicketsTable, Call.populateChatMessages] := by
      rw [hd, populateChatMessages_trace, populateTicketsTable_trace]
      simp
    refine ⟨chromeShown_of_eq _ _ ?_ ?_, htr, ?_, ?_⟩
    · rw [hd, populateChatMessages_mainHeader, populateTicketsTable_mainHeader]
    · rw [hd, populateChatMessages_mainSidebar, populateTicketsTable_mainSidebar]
    · rw [htr]
      simp [ticketRenders, List.count_append]
    · rw [htr]
      simp [chatRenders, List.count_append]
  · intro hk hdash
    have hc : (p.bodyClasses.contains "login-page-body" ||
        p.bodyClasses.contains "register-page-body") = false := by
      simpa [isLoginOrRegister] using hk
    have hd : domContentLoaded p = { p with
        isAuthenticated := p.dashboardPage
        mainHeader := p.mainHeader.map (classListAdd "hidden")
        mainSidebar := p.mainSidebar.map (classListAdd "hidden") } := by
      simp only [domContentLoaded, hc, hdash, Bool.false_eq_true, if_false, if_true]
    rw [hd]
    exact ⟨chromeHidden_of_eq _ _ rfl rfl, rfl⟩

/-! ## Renderers -/

theorem populateTicketsTable_of_container (p : Page) (prior : List Row)
    (h : p.ticketsTableBody = some prior) :
    (populateTicketsTable p).ticketsTableBody = some (p.sampleTickets.map ticketRow) := by
  simp [populateTicketsTable, h, foldl_append_single]

theorem populateTicketsTable_sampleTickets (p : Page) :
    (populateTicketsTable p).sampleTickets = p.sampleTickets := by
  unfold populateTicketsTable
  cases h : p.ticketsTableBody <;> simp [h]

theorem populateChatMessages_of_container (p : Page) (prior : List Row)
    (h : p.chatMessagesContainer = some prior) :
    (populateChatMessages p).chatMessagesContainer = some (p.chatMessages.map messageDiv) := by
  simp [populateChatMessages, h, foldl_append_single]

/-- C9: for every ticket list, message list and prior content of a container:
`populateTicketsTable` leaves exactly the rows `ticketRow t` for the tickets in
order, with none of the prior content, and a second call gives the same
content; likewise `populateChatMessages` with `messageDiv`; and the class of a
message row is `flex justify-end` exactly when the sender is `You`, and
`flex justify-start` otherwise. -/
theorem renderers_replace_content (p : Page) (tickets : List Ticket)
    (msgs : List ChatMessage) (prior : List Row) :
    (populateTicketsTable { p with sampleTickets := tickets, ticketsTableBody := some prior }
      ).ticketsTableBody = some (tickets.map ticketRow) ∧
    (populateTicketsTable (populateTicketsTable
      { p with sampleTickets := tickets, ticketsTableBody := some prior })).ticketsTableBody
      = (populateTicketsTable
          { p with sampleTickets := tickets, ticketsTableBody := some prior }).ticketsTableBody ∧
    (populateChatMessages { p with chatMessages := msgs, chatMessagesContainer := some prior }
      ).chatMessagesContainer = some (msgs.map messageDiv) ∧
    (populateChatMessages (populateChatMessages
      { p with chatMessages := msgs, chatMessagesContainer := some prior })
      ).chatMessagesContainer
      = (populateChatMessages
          { p with chatMessages := msgs, chatMessagesContainer := some prior }
        ).chatMessagesContainer ∧
    (∀ msg : ChatMessage,
      (messageDiv msg).className =
        (if msg.sender = "You" then "flex justify-end" else "flex justify-start") ∧
      ((messageDiv msg).className = "flex justify-end" ↔ msg.sender = "You") ∧
      ((messageDiv msg).className = "flex justify-start" ↔ msg.sender ≠ "You")) := by
  have ht := populateTicketsTable_of_container
    { p with sampleTickets := tickets, ticketsTableBody := some prior } prior rfl
  have hc := populateChatMessages_of_container
    { p with chatMessages := msgs, chatMessagesContainer := some prior } prior rfl
  refine ⟨ht, ?_, hc, ?_, ?_⟩
  · rw [populateTicketsTable_of_container _ _ ht, populateTicketsTable_sampleTickets, ht]
  · rw [populateChatMessages_of_container _ _ hc, populateChatMessages_chatMessages, hc]
  · intro msg
    by_cases h : msg.sender = "You"
    · have hcn : (messageDiv msg).className = "flex justify-end" := by
        simp only [messageDiv, h, beq_self_eq_true, if_true]
        rfl
      rw [hcn]
      refine ⟨by simp [h], by simp [h], ?_⟩
      constructor
      · intro habs
        exact absurd habs (by decide)
      · intro hne
        exact absurd h hne
    · have hb : (msg.sender == "You") = false := by simpa using h
      have hcn : (messageDiv msg).className = "flex justify-start" := by
        simp only [messageDiv, hb, Bool.false_eq_true, if_false]
        rfl
      rw [hcn]
      refine ⟨by simp [h], ?_, by simp [h]⟩
      constructor
      · intro habs
        exact absurd habs (by decide)
      · intro hy
        exact absurd hy h

/-! ## Modal -/

theorem countById_updateById (id : String) (f : Element → Element)
    (hf : ∀ e, (f e).id = e.id) (body : List Element) :
    countById id (updateById id f body) = countById id body := by
  induction body with
  | nil => rfl
  | cons e es ih =>
    by_cases h : e.id = id
    · simp [updateById, countById, List.countP_cons, h, hf]
    · simp only [countById] at ih
      simp [updateById, countById, List.countP_cons, h, ih]

theorem getElementById_updateById (id : String) (f : Element → Element)
    (hf : ∀ e, (f e).id = e.id) (body : List Element) :
    getElementById id (updateById id f body) = (getElementById id body).map f := by
  induction body with
  | nil => rfl
  | cons e es ih =>
    by_cases h : e.id = id
    · simp [updateById, getElementById, List.find?_cons, h, hf]
    · simp only [getElementById] at ih
      simp [updateById, getElementById, List.find?_cons, h, ih]

theorem countById_ensureModal (body : List Element)
    (h : countById "custom-message-modal" body ≤ 1) :
    countById "custom-message-modal" (ensureModal body) = 1 := by
  unfold ensureModal
  cases hg : getElementById "custom-message-modal" body with
  | none =>
    have h0 := (getElementById_eq_none_iff _ _).mp hg
    simp only [countById_append, h0]
    simp [countById, customMessageModal]
  | some e =>
    have hne : countById "custom-message-modal" body ≠ 0 := by
      intro h0
      rw [(getElementById_eq_none_iff _ _).mpr h0] at hg
      exact Option.noConfusion hg
    simp only
    omega

theorem getElementById_ensureModal_isSome (body : List Element) :
    ∃ e, getElementById "custom-message-modal" (ensureModal body) = some e := by
  unfold ensureModal
  cases hg : getElementById "custom-message-modal" body with
  | none =>
    have hall : ∀ e ∈ body, ¬ (e.id == "custom-message-modal") = true := by
      simpa [getElementById] using hg
    refine ⟨customMessageModal, ?_⟩
    simp only [getElementById]
    rw [List.find?_append, List.find?_eq_none.mpr hall]
    simp [customMessageModal]
  | some e => exact ⟨e, hg⟩

theorem showCustomMessage_body (t m : String) (p : Page) :
    (showCustomMessage t m p).body =
      updateById "custom-message-modal"
        (fun e => { e with classList := classListRemove "hidden" e.classList })
        (updateById "custom-message-modal" (fun e => { e with message := m })
          (updateById "custom-message-modal" (fun e => { e with title := t })
            (ensureModal p.body))) := by
  unfold showCustomMessage ensureModal
  cases hg : getElementById "custom-message-modal" p.body <;> simp [hg]

theorem modalCount_showCustomMessage (t m : String) (p : Page) (h : modalCount p ≤ 1) :
    modalCount (showCustomMessage t m p) = 1 := by
  simp only [modalCount] at h ⊢
  rw [showCustomMessage_body, countById_updateById, countById_updateById,
    countById_updateById]
  · exact countById_ensureModal _ h
  all_goals intro e; rfl

theorem modal_after_showCustomMessage (t m : String) (p : Page) :
    ∃ e, getElementById "custom-message-modal" (showCustomMessage t m p).body = some e ∧
      e.title = t ∧ e.message = m ∧ e.isHidden = false := by
  obtain ⟨e0, he0⟩ := getElementById_ensureModal_isSome p.body
  rw [showCustomMessage_body, getElementById_updateById, getElementById_updateById,
    getElementById_updateById, he0]
  · refine ⟨_, rfl, rfl, rfl, ?_⟩
    simp [Element.isHidden, classListRemove]
  all_goals intro e; rfl

theorem hideIfScripted_id (e : Element) : (hideIfScripted e).id = e.id := by
  unfold hideIfScripted
  split <;> rfl

theorem hideIfScripted_onclick (e : Element) : (hideIfScripted e).onclick = e.onclick := by
  unfold hideIfScripted
  split <;> rfl

theorem modalCount_modalCloseClick (p : Page) :
    modalCount (modalCloseClick p) = modalCount p := by
  simp only [modalCount, modalCloseClick]
  exact countById_updateById _ _ hideIfScripted_id _

theorem modalCount_step_le (p : Page) (e : ModalEvent) (h : modalCount p ≤ 1) :
    modalCount p ≤ modalCount (modalStep p e) ∧ modalCount (modalStep p e) ≤ 1 := by
  cases e with
  | showMessage t m =>
    simp only [modalStep, modalCount_showCustomMessage t m p h]
    exact ⟨h, le_refl _⟩
  | closeClick =>
    simp only [modalStep, modalCount_modalCloseClick]
    exact ⟨le_refl _, h⟩

theorem modalCount_run_le (evs : List ModalEvent) (p : Page) (h : modalCount p ≤ 1) :
    modalCount p ≤ modalCount (modalRun p evs) ∧ modalCount (modalRun p evs) ≤ 1 := by
  induction evs generalizing p with
  | nil => exact ⟨le_refl _, h⟩
  | cons e es ih =>
    have hs := modalCount_step_le p e h
    have := ih (modalStep p e) hs.2
    exact ⟨le_trans hs.1 this.1, this.2⟩

theorem modalCount_run_of_show (evs : List ModalEvent) (p : Page) (h : modalCount p ≤ 1)
    (hshow : ∃ t m, ModalEvent.showMessage t m ∈ evs) : modalCount (modalRun p evs) = 1 := by
  induction evs generalizing p with
  | nil =>
    obtain ⟨t, m, hm⟩ := hshow
    simp at hm
  | cons e es ih =>
    obtain ⟨t, m, hm⟩ := hshow
    have hs := modalCount_step_le p e h
    rcases List.mem_cons.mp hm with heq | hmem
    · subst heq
      have h1 : modalCount (modalStep p (ModalEvent.showMessage t m)) = 1 :=
        modalCount_showCustomMessage t m p h
      have := modalCount_run_le es (modalStep p (ModalEvent.showMessage t m)) hs.2
      simp only [modalRun, List.foldl_cons] at this ⊢
      omega
    · exact ih (modalStep p e) hs.2 ⟨t, m, hmem⟩

theorem mem_updateById (id : String) (f : Element → Element) (body : List Element)
    (x : Element) (hx : x ∈ updateById id f body) :
    x ∈ body ∨ ∃ e ∈ body, x = f e := by
  induction body with
  | nil => simp [updateById] at hx
  | cons e es ih =>
    by_cases h : e.id = id
    · simp only [updateById, h, beq_self_eq_true, if_true, List.mem_cons] at hx
      rcases hx with rfl | hx
      · exact Or.inr ⟨e, List.mem_cons_self _ _, rfl⟩
      · exact Or.inl (List.mem_cons_of_mem _ hx)
    · have hb : (e.id == id) = false := by simpa using h
      simp only [updateById, hb, Bool.false_eq_true, if_false, List.mem_cons] at hx
      rcases hx with rfl | hx
      · exact Or.inl (List.mem_cons_self _ _)
      · rcases ih hx with h1 | ⟨e1, he1, rfl⟩
        · exact Or.inl (List.mem_cons_of_mem _ h1)
        · exact Or.inr ⟨e1, List.mem_cons_of_mem _ he1, rfl⟩

theorem modalsScripted_updateById (f : Element → Element)
    (hid : ∀ e, (f e).id = e.id) (hon : ∀ e, (f e).onclick = e.onclick)
    (body : List Element) (h : ModalsScripted body) :
    ModalsScripted (updateById "custom-message-modal" f body) := by
  intro x hx hxid
  rcases mem_updateById _ f body x hx with h1 | ⟨e, he, rfl⟩
  · exact h x h1 hxid
  · rw [hon]
    rw [hid] at hxid
    exact h e he hxid

theorem modalsScripted_ensureModal (body : List Element) (h : ModalsScripted body) :
    ModalsScripted (ensureModal body) := by
  unfold ensureModal
  split
  · exact h
  · intro x hx hxid
    rcases List.mem_append.mp hx with h1 | h1
    · exact h x h1 hxid
    · rw [List.mem_singleton.mp h1]
      rfl

theorem modalCloseClick_body (p : Page) :
    (modalCloseClick p).body = updateById "custom-message-modal" hideIfScripted p.body := rfl

theorem modalsScripted_step (p : Page) (e : ModalEvent) (h : ModalsScripted p.body) :
    ModalsScripted (modalStep p e).body := by
  cases e with
  | showMessage t m =>
    simp only [modalStep, showCustomMessage_body]
    refine modalsScripted_updateById _ (fun e => ?_) (fun e => ?_) _
      (modalsScripted_updateById _ (fun e => ?_) (fun e => ?_) _
        (modalsScripted_updateById _ (fun e => ?_) (fun e => ?_) _
          (modalsScripted_ensureModal _ h)))
    all_goals rfl
  | closeClick =>
    simp only [modalStep, modalCloseClick_body]
    exact modalsScripted_updateById _ hideIfScripted_id hideIfScripted_onclick _ h

theorem modalsScripted_run (evs : List ModalEvent) (p : Page) (h : ModalsScripted p.body) :
    ModalsScripted (modalRun p evs).body := by
  induction evs generalizing p with
  | nil => exact h
  | cons e es ih => exact ih (modalStep p e) (modalsScripted_step p e h)

theorem modalsScripted_of_count_zero (p : Page) (h : modalCount p = 0) :
    ModalsScripted p.body := by
  intro e he hid
  simp only [modalCount, countById, List.countP_eq_zero] at h
  exact absurd (by simpa using hid) (h e he)

theorem modal_after_close (t m : String) (p : Page) (h : ModalsScripted p.body) :
    ∃ e, getElementById "custom-message-modal"
        (modalCloseClick (showCustomMessage t m p)).body = some e ∧
      e.title = t ∧ e.message = m ∧ e.isHidden = true := by
  obtain ⟨e, he, ht, hm, _⟩ := modal_after_showCustomMessage t m p
  have hs : ModalsScripted (showCustomMessage t m p).body :=
    modalsScripted_step p (ModalEvent.showMessage t m) h
  have hmem : e ∈ (showCustomMessage t m p).body := List.mem_of_find?_eq_some he
  have hid : e.id = "custom-message-modal" := by
    have := List.find?_some he
    simpa using this
  have hon := hs e hmem hid
  rw [modalCloseClick_body, getElementById_updateById _ _ hideIfScripted_id, he]
  refine ⟨_, rfl, ?_, ?_, ?_⟩
  · simp [hideIfScripted, hon, ht]
  · simp [hideIfScripted, hon, hm]
  · simp only [hideIfScripted, hon, if_true, Element.isHidden]
    simpa using mem_classListAdd_self "hidden" e.classList

/-- C10: starting from a document with no `#custom-message-modal`, after any
sequence of `showCustomMessage` calls and close clicks that contains at least
one call, exactly one modal element exists; at most one exists at any time, and a
close click does not change the count.  Right after `showCustomMessage(t, m)`
the modal has title `t`, message `m` and is not hidden, whatever came before;
a close click right after that hides it and keeps its title and message. -/
theorem modal_is_single_and_shows_last_message (p : Page) (evs : List ModalEvent)
    (hnone : modalCount p = 0) :
    ((∃ t m, ModalEvent.showMessage t m ∈ evs) → modalCount (modalRun p evs) = 1) ∧
    modalCount (modalRun p evs) ≤ 1 ∧
    modalCount (modalCloseClick (modalRun p evs)) = modalCount (modalRun p evs) ∧
    (∀ t m,
      modalCount (showCustomMessage t m (modalRun p evs)) = 1 ∧
      (∃ e, getElementById "custom-message-modal"
          (showCustomMessage t m (modalRun p evs)).body = some e ∧
        e.title = t ∧ e.message = m ∧ e.isHidden = false) ∧
      (∃ e, getElementById "custom-message-modal"
          (modalCloseClick (showCustomMessage t m (modalRun p evs))).body = some e ∧
        e.title = t ∧ e.message = m ∧ e.isHidden = true)) := by
  have h1 : modalCount p ≤ 1 := by omega
  have hle := (modalCount_run_le evs p h1).2
  have hscr := modalsScripted_run evs p (modalsScripted_of_count_zero p hnone)
  exact ⟨modalCount_run_of_show evs p h1, hle, modalCount_modalCloseClick _,
    fun t m => ⟨modalCount_showCustomMessage t m _ hle, modal_after_showCustomMessage t m _,
      modal_after_close t m _ hscr⟩⟩

/-- Witness for C10 on the example document: close, show, close, show. -/
theorem modal_is_single_and_shows_last_message_witness :
    ((∃ t m, ModalEvent.showMessage t m ∈
        [ModalEvent.closeClick, .showMessage "a" "b", .closeClick, .showMessage "c" "d"]) →
      modalCount (modalRun examplePage
        [.closeClick, .showMessage "a" "b", .closeClick, .showMessage "c" "d"]) = 1) ∧
    modalCount (modalRun examplePage
      [.closeClick, .showMessage "a" "b", .closeClick, .showMessage "c" "d"]) ≤ 1 ∧
    modalCount (modalCloseClick (modalRun examplePage
      [.closeClick, .showMessage "a" "b", .closeClick, .showMessage "c" "d"]))
      = modalCount (modalRun examplePage
        [.closeClick, .showMessage "a" "b", .closeClick, .showMessage "c" "d"]) ∧
    (∀ t m,
      modalCount (showCustomMessage t m (modalRun examplePage
        [.closeClick, .showMessage "a" "b", .closeClick, .showMessage "c" "d"])) = 1 ∧
      (∃ e, getElementById "custom-message-modal"
          (showCustomMessage t m (modalRun examplePage
            [.closeClick, .showMessage "a" "b", .closeClick, .showMessage "c" "d"])).body
            = some e ∧
        e.title = t ∧ e.message = m ∧ e.isHidden = false) ∧
      (∃ e, getElementById "custom-message-modal"
          (modalCloseClick (showCustomMessage t m (modalRun examplePage
            [.closeClick, .showMessage "a" "b", .closeClick, .showMessage "c" "d"]))).body
            = some e ∧
        e.title = t ∧ e.message = m ∧ e.isHidden = true)) :=
  modal_is_single_and_shows_last_message examplePage
    [.closeClick, .showMessage "a" "b", .closeClick, .showMessage "c" "d"] rfl

end HelpDesk
